import Mathlib

/-!
Verification development for the File-converter repository.

The Python sources are shallowly embedded: pure fragments become Lean
functions; calls into external libraries (docx2pdf, Word COM, pypandoc,
mammoth, pdfkit, xhtml2pdf, python-docx, reportlab, PIL) become oracle
fields of an environment record that fixes each call's outcome, and the
`try`/`except` structure of the Python is reproduced with `Except` values
and explicit catch combinators.  File-system effects that the code
observes (existence / non-emptiness checks, deletion of the temporary
bridge HTML file) are threaded explicitly as state.
-/

namespace FileConv

/-! ## Python string helpers -/

/-- Model of the XML escaping done before handing text to reportlab
`Paragraph` (docx_to_pdf.py line 509 / 576 / 639):
`.replace('&','&amp;').replace('<','&lt;').replace('>','&gt;')`. -/
def escapeXml (s : String) : String :=
  ((s.replace "&" "&amp;").replace "<" "&lt;").replace ">" "&gt;"

/-- Model of `text.encode('ascii', 'ignore').decode('ascii')`
(docx_to_pdf.py line 546): drop every non-ASCII character. -/
def asciiOnly (s : String) : String :=
  String.mk (s.toList.filter (fun c => c.toNat < 128))

/-- Index of the last '.' in a character list, if any. -/
def findLastDot (cs : List Char) : Option Nat :=
  cs.enum.foldl (fun acc p => if p.2 = '.' then some p.1 else acc) none

/-- Model of `os.path.splitext` for plain file names (no directory
separators, which is how the repository always calls it): split at the
last dot, except that a name consisting only of leading dots before that
dot has no extension. -/
def splitExt (s : String) : String × String :=
  let cs := s.toList
  match findLastDot cs with
  | none => (s, "")
  | some i =>
    if (cs.take i).all (fun c => c = '.') then (s, "")
    else (String.mk (cs.take i), String.mk (cs.drop i))

/-- Model of `str.lower()`: lower-case every character. -/
def pyLower (s : String) : String :=
  String.mk (s.toList.map Char.toLower)

/-- Model of `utils.file_utils.get_file_extension`:
`os.path.splitext(filename)[1].lower()`. -/
def getFileExtension (filename : String) : String :=
  pyLower (splitExt filename).2

/-! ## Shared error type for the embedded Python exceptions -/

/-- Which strategy / library call an exception originated from. -/
inductive Stage
  | docx2pdf | com | pandocDirect | htmlBridge | pdfkit | xhtml | manual
  deriving DecidableEq, Repr

/-- An embedded Python exception: its originating stage and message. -/
structure PyErr where
  stage : Stage
  msg : String
  deriving DecidableEq, Repr

/-- The Lean rendition of a Python `except Exception` handler. -/
def catchE {α : Type} (x : Except PyErr α) (h : PyErr → Except PyErr α) :
    Except PyErr α :=
  match x with
  | .ok a => .ok a
  | .error e => h e

/-- An external call that either succeeds (returning nothing) or raises. -/
def pyOp (ok : Bool) (st : Stage) (m : String) : Except PyErr Unit :=
  if ok then .ok () else .error ⟨st, m⟩

/-! ## Manual layout renderer (docx_to_pdf.py lines 354-665)

The document model keeps exactly what the renderer reads from python-docx:
paragraph text and style name, and table cell texts. -/

/-- Which reportlab paragraph style a flowable was built with:
`heading_style`, `body_style`, or the retry `SimpleStyle`. -/
inductive StyleName
  | heading | body | simple
  deriving DecidableEq, Repr

/-- A cell of the reportlab table data: a `Paragraph`, the plain-string
fallback (line 585), or the empty string used both for empty cells and
for ragged-row padding (lines 587 and 589). -/
inductive TCell
  | cellPara (s : String)
  | cellPlain (s : String)
  | cellEmpty
  deriving DecidableEq, Repr

/-- A reportlab flowable appended to `story`. Spacer heights are in
hundredths of an inch (`Spacer(1, 0.15*inch)` becomes `fspacer 15`). -/
inductive Flowable
  | fpara (text : String) (style : StyleName)
  | fspacer (h : Nat)
  | ftable (data : List (List TCell))
  deriving DecidableEq, Repr

/-- A python-docx paragraph as the renderer reads it. -/
structure Para where
  text : String
  styleName : String
  deriving DecidableEq, Repr

/-- A python-docx table: rows of cell texts. -/
structure Tbl where
  rows : List (List String)
  deriving DecidableEq, Repr

/-- A parsed DOCX as the manual renderer consumes it. -/
structure Docx where
  paragraphs : List Para
  tables : List Tbl
  deriving DecidableEq, Repr

/-- Oracle outcomes for every library call the manual renderer makes.
Each `Bool` says whether the corresponding call succeeds or raises. -/
structure ManualEnv where
  /-- the `from docx import Document` / reportlab import block (354-363) -/
  importsOk : Bool
  /-- `Document(input_path)` (line 366); raises on a corrupt DOCX -/
  docOpenOk : Bool
  /-- some Unicode font registered (lines 369-467); affects logging only -/
  fontRegistered : Bool
  /-- `Paragraph(text, style)` at tier 1 (line 525), per paragraph index -/
  paraT1 : Nat → Bool
  /-- `Paragraph(text, simple_style)` at tier 2 (line 540) -/
  paraT2 : Nat → Bool
  /-- `Paragraph(safe_text + marker, body_style)` at tier 3 (line 549) -/
  paraT3 : Nat → Bool
  /-- `Paragraph(cell_text, body_style)` per table/row/column (line 580) -/
  cellParaOk : Nat → Nat → Nat → Bool
  /-- `Table(...)` construction + `setStyle` (lines 599-619), per table -/
  tableCtorOk : Nat → Bool
  /-- `Paragraph("<b>Table N:</b>", heading_style)` (line 633), per table -/
  fallbackHeaderOk : Nat → Bool
  /-- `Paragraph(row_text, body_style)` (line 641), per table and row -/
  fallbackRowOk : Nat → Nat → Bool
  /-- `pdf.build(story)` (line 654) -/
  buildOk : Bool
  /-- `pdf.build([...render error...])` (line 659) -/
  minimalBuildOk : Bool
  /-- `pdf.build([...no content...])` (line 662) -/
  emptyBuildOk : Bool

/-- A reportlab `Paragraph` constructor call: yields the flowable or
raises, as the oracle dictates. -/
def pyParagraph (ok : Bool) (text : String) (st : StyleName) :
    Except PyErr Flowable :=
  if ok then .ok (.fpara text st) else .error ⟨.manual, "Paragraph failed"⟩

/-- The per-paragraph rendering body (docx_to_pdf.py lines 499-553),
with its nested `try`/`except` tiers rendered through `catchE`.
`i` is the `enumerate` index. -/
def renderParaE (env : ManualEnv) (i : Nat) (p : Para) :
    Except PyErr (List Flowable) :=
  let tc := p.text.trim
  if tc = "" then .ok []
  else
    let style := if p.styleName.startsWith "Heading" then StyleName.heading
                 else StyleName.body
    let text := escapeXml tc
    catchE
      (do
        let fp ← pyParagraph (env.paraT1 i) text style
        pure [fp, .fspacer 15])
      (fun _e =>
        catchE
          (do
            let fp ← pyParagraph (env.paraT2 i) text .simple
            pure [fp, .fspacer 15])
          (fun _e2 =>
            let safe := asciiOnly tc
            if safe ≠ "" then
              catchE
                (do
                  let fp ← pyParagraph (env.paraT3 i)
                    (safe ++ " [Some characters could not be displayed]") .body
                  pure [fp, .fspacer 15])
                (fun _e3 => .ok [])
            else .ok []))

/-- The three-tier degradation policy exactly as the spec words it
(spec §4.3 "Failure policy per paragraph"): render with the chosen
style; on failure retry with a simplified style; on failure strip to
ASCII-only text with the marker appended; if even that fails (or the
stripped text is empty) the paragraph is silently dropped. -/
def paraDegradePolicy (env : ManualEnv) (i : Nat) (p : Para) :
    List Flowable :=
  let tc := p.text.trim
  if tc = "" then []
  else
    let style := if p.styleName.startsWith "Heading" then StyleName.heading
                 else StyleName.body
    let text := escapeXml tc
    if env.paraT1 i then [.fpara text style, .fspacer 15]
    else if env.paraT2 i then [.fpara text .simple, .fspacer 15]
    else
      let safe := asciiOnly tc
      if safe ≠ "" && env.paraT3 i then
        [.fpara (safe ++ " [Some characters could not be displayed]") .body,
         .fspacer 15]
      else []

/-- The paragraph loop (`for para_idx, para in enumerate(doc.paragraphs)`),
threading the index. -/
def buildParasAux (env : ManualEnv) : Nat → List Para →
    Except PyErr (List Flowable)
  | _, [] => .ok []
  | i, p :: rest => do
    let fs ← renderParaE env i p
    let fs' ← buildParasAux env (i + 1) rest
    pure (fs ++ fs')

/-- The whole-loop counterpart of `paraDegradePolicy`. -/
def parasPolicy (env : ManualEnv) : Nat → List Para → List Flowable
  | _, [] => []
  | i, p :: rest => paraDegradePolicy env i p ++ parasPolicy env (i + 1) rest

/-- First pass over a table (lines 561-563): the maximum cell count over
all rows. -/
def maxColsOf (rows : List (List String)) : Nat :=
  rows.foldl (fun m r => max m r.length) 0

/-- Second pass, one row (lines 566-591): walk `range(max_cols)`; inside
the original row the stripped cell text becomes a `Paragraph` (or the
plain escaped string if that raises, or `''` if the stripped text is
empty); past the end of a ragged row, pad with `''`. -/
def buildRowData (cOk : Nat → Bool) (mc : Nat) (cells : List String) :
    List TCell :=
  (List.range mc).map fun j =>
    if h : j < cells.length then
      let ct := (cells.get ⟨j, h⟩).trim
      if ct = "" then .cellEmpty
      else if cOk j then .cellPara (escapeXml ct)
      else .cellPlain (escapeXml ct)
    else .cellEmpty

/-- The row loop with its `enumerate` index. -/
def buildTableDataAux (cOk : Nat → Nat → Bool) (mc : Nat) :
    Nat → List (List String) → List (List TCell)
  | _, [] => []
  | ri, r :: rest => buildRowData (cOk ri) mc r ::
      buildTableDataAux cOk mc (ri + 1) rest

/-- `table_data` as built by docx_to_pdf.py lines 558-591. -/
def buildTableData (cOk : Nat → Nat → Bool) (rows : List (List String)) :
    List (List TCell) :=
  buildTableDataAux cOk (maxColsOf rows) 0 rows

/-- Python truthiness of a cell of `table_data`: `Paragraph` objects and
non-empty strings are truthy, `''` is falsy. -/
def tcellNonEmpty : TCell → Bool
  | .cellEmpty => false
  | _ => true

/-- The pipe-delimited text fallback rows (lines 635-645). -/
def fallbackRowsAux (env : ManualEnv) (ti : Nat) :
    Nat → List (List String) → List Flowable
  | _, [] => []
  | ri, r :: rest =>
    let texts := (r.map String.trim).filter (fun s => !(s == ""))
    (if !texts.isEmpty then
      (if env.fallbackRowOk ti ri then
        [Flowable.fpara (escapeXml (String.intercalate " | " texts))
          StyleName.body, Flowable.fspacer 5]
       else [])
     else []) ++ fallbackRowsAux env ti (ri + 1) rest

/-- The `except` fallback for a table (lines 628-649).  Note the spacer
at line 632 is appended to `story` before the header `Paragraph` is
attempted, so it survives even when the header raises and the inner
`except` at 648 swallows the exception. -/
def fallbackTableFlows (env : ManualEnv) (ti : Nat) (t : Tbl) :
    List Flowable :=
  if env.fallbackHeaderOk ti then
    [Flowable.fspacer 10,
     Flowable.fpara ("<b>Table " ++ toString (ti + 1) ++ ":</b>")
       StyleName.heading]
    ++ fallbackRowsAux env ti 0 t.rows ++ [Flowable.fspacer 20]
  else [Flowable.fspacer 10]

/-- One table of the table loop (lines 556-649).  The data passes are
pure; the `Table(...)` construction is the oracle-governed raise point,
and its failure enters the text fallback. -/
def renderTableFlows (env : ManualEnv) (ti : Nat) (t : Tbl) :
    List Flowable :=
  let td := buildTableData (env.cellParaOk ti) t.rows
  if !td.isEmpty && td.any (fun r => r.any tcellNonEmpty) then
    if env.tableCtorOk ti then
      [Flowable.fspacer 20, Flowable.ftable td, Flowable.fspacer 30]
    else fallbackTableFlows env ti t
  else []

/-- The table loop. -/
def renderTablesAux (env : ManualEnv) : Nat → List Tbl → List Flowable
  | _, [] => []
  | ti, t :: rest => renderTableFlows env ti t ++
      renderTablesAux env (ti + 1) rest

/-- `story` after both loops (lines 496-649). -/
def buildStory (env : ManualEnv) (d : Docx) :
    Except PyErr (List Flowable) :=
  match buildParasAux env 0 d.paragraphs with
  | .error e => .error e
  | .ok pf => .ok (pf ++ renderTablesAux env 0 d.tables)

/-- Height model for pagination (hundredths of an inch): a paragraph
line box, a spacer's own height, a table by its rows. -/
def flowHeight : Flowable → Nat
  | .fpara _ _ => 25
  | .fspacer h => h
  | .ftable td => 40 * td.length + 10

/-- Usable page content height in the same units. -/
def pageCap : Nat := 1000

/-- Greedy pagination, modelling reportlab platypus: flowables are laid
out in order and a new page starts when the current one is full. -/
def paginateAux : List Flowable → List Flowable → Nat →
    List (List Flowable)
  | [], cur, _ => [cur.reverse]
  | f :: rest, cur, used =>
    let h := flowHeight f
    if used + h ≤ pageCap then paginateAux rest (f :: cur) (used + h)
    else cur.reverse :: paginateAux rest [f] h

/-- Paginate a flowable list onto pages. -/
def paginate (flows : List Flowable) : List (List Flowable) :=
  paginateAux flows [] 0

/-- The PDF a successful reportlab build writes: its pages. -/
structure BuiltPdf where
  pages : List (List Flowable)
  deriving DecidableEq, Repr

/-- The manual (python-docx + reportlab) strategy, docx_to_pdf.py lines
354-665.  Raises (`.error`, always tagged `.manual`) when the imports,
`Document(...)`, or the final uncaught `pdf.build` calls raise; a
successful `pdf.build` writes a complete non-empty PDF (reportlab
contract), returned as `.ok`. -/
def manualStage (env : ManualEnv) (d : Docx) : Except PyErr BuiltPdf :=
  if !env.importsOk then .error ⟨.manual, "import failed"⟩
  else if !env.docOpenOk then .error ⟨.manual, "Document open failed"⟩
  else
    match buildStory env d with
    | .error e => .error e
    | .ok story =>
      if !story.isEmpty then
        if env.buildOk then .ok ⟨paginate story⟩
        else if env.minimalBuildOk then
          .ok ⟨paginate [.fpara "Error: Could not render document content"
            StyleName.body]⟩
        else .error ⟨.manual, "Failed to build PDF"⟩
      else
        if env.emptyBuildOk then
          .ok ⟨paginate [.fpara "No content found in document"
            StyleName.body]⟩
        else .error ⟨.manual, "Failed to build PDF"⟩

/-! ## Conversion cascade controller (docx_to_pdf.py lines 9-352 plus the
manual fallback above)

Every external call's outcome is a field of `DocxEnv`.  The `Bool`
carried by success results is the `os.path.exists(...) and
os.path.getsize(...) > 0` validation performed at the corresponding
return site. -/

/-- Outcome of `pypandoc.convert_file(..., 'pdf', ...)` (line 100): the
inner `except` at 117 catches only `RuntimeError`. -/
inductive PandocPdfOutcome
  | ok | runtimeXelatexMissing | runtimeOther | otherExc
  deriving DecidableEq, Repr

/-- Outcome of `pdfkit.from_file` (line 298): the inner `except OSError`
at 310 distinguishes the missing-executable case. -/
inductive PdfkitOutcome
  | ok | osErrNotFound | osErrOther | otherExc
  deriving DecidableEq, Repr

/-- Oracle outcomes for every external call of the cascade. -/
structure DocxEnv where
  /-- `platform.system() == "Windows"` (line 16) -/
  isWindows : Bool
  /-- `from docx2pdf import convert` (line 18) -/
  docx2pdfImportOk : Bool
  /-- `convert(abs_input, abs_output)` (line 31) -/
  docx2pdfCallOk : Bool
  /-- the exists-and-nonempty check at line 37 -/
  docx2pdfOutValid : Bool
  /-- `import win32com.client` (line 49) -/
  comImportOk : Bool
  /-- `Dispatch("Word.Application")` (line 52) -/
  comDispatchOk : Bool
  /-- `word.Documents.Open` (line 65) -/
  comOpenOk : Bool
  /-- `doc.SaveAs(..., FileFormat=17)` (line 69) -/
  comSaveOk : Bool
  /-- the exists-and-nonempty check at line 78 -/
  comOutValid : Bool
  /-- `import pypandoc` (lines 95 and 130: same module, one outcome) -/
  pypandocImportOk : Bool
  /-- the direct DOCX to PDF pandoc call (line 100) -/
  pandocPdf : PandocPdfOutcome
  /-- the exists-and-nonempty check at line 113 -/
  pandocPdfOutValid : Bool
  /-- `pypandoc.convert_file(..., 'html', ...)` (line 136); on success it
  has written the temporary HTML file -/
  pandocHtmlOk : Bool
  /-- `import mammoth` plus `mammoth.convert_to_html` (lines 153-159) -/
  mammothOk : Bool
  /-- reading the pandoc-produced HTML back in (line 250) -/
  readPandocHtmlOk : Bool
  /-- writing the enhanced HTML out (line 246 or 268) -/
  writeEnhancedOk : Bool
  /-- `import pdfkit` (line 275) -/
  pdfkitImportOk : Bool
  /-- `pdfkit.from_file` (line 298) -/
  pdfkit : PdfkitOutcome
  /-- the exists-and-nonempty check at line 304 -/
  pdfkitOutValid : Bool
  /-- `from xhtml2pdf import pisa` (line 322) -/
  xhtmlImportOk : Bool
  /-- reading the temporary HTML file (line 325), given it exists -/
  xhtmlReadOk : Bool
  /-- `pisa.CreatePDF` returning rather than raising (line 329) -/
  pisaCallOk : Bool
  /-- the `pisa_status.err` flag of a returned `CreatePDF` (line 339) -/
  pisaErr : Bool
  /-- the exists-and-nonempty check at line 339 -/
  xhtmlOutValid : Bool
  /-- oracles of the manual fallback -/
  manual : ManualEnv

/-- The docx2pdf attempt (lines 17-41).  `.ok v` is the `return` at 39
with `v` the validation outcome; every raise (import, call, or the
explicit raise at 41) is `.error`. -/
def docx2pdfAttempt (env : DocxEnv) : Except PyErr Bool := do
  pyOp env.docx2pdfImportOk .docx2pdf "import docx2pdf failed"
  pyOp env.docx2pdfCallOk .docx2pdf "convert raised"
  if env.docx2pdfOutValid then pure env.docx2pdfOutValid
  else .error ⟨.docx2pdf, "Output PDF was not created or is empty"⟩

/-- The direct Word COM attempt (lines 47-82). -/
def comAttempt (env : DocxEnv) : Except PyErr Bool := do
  pyOp env.comImportOk .com "import win32com failed"
  pyOp env.comDispatchOk .com "Dispatch raised"
  pyOp env.comOpenOk .com "Documents.Open raised"
  pyOp env.comSaveOk .com "SaveAs raised"
  if env.comOutValid then pure env.comOutValid
  else .error ⟨.com, "Word COM failed to create PDF"⟩

/-- The Windows block (lines 16-91): docx2pdf, then on any exception the
COM fallback inside the `except` at 43; the `except` at 84 releases Word
and falls through.  `some v` is a `return`, `none` is fallthrough. -/
def tryWindows (env : DocxEnv) : Option Bool :=
  if !env.isWindows then none
  else
    match docx2pdfAttempt env with
    | .ok v => some v
    | .error _ =>
      match comAttempt env with
      | .ok v => some v
      | .error _ => none

/-- The pandoc direct-to-PDF attempt (lines 94-121), as seen from inside
the outer `try` at 94: `.ok (some v)` is the `return` at 115, `.ok none`
is fallthrough (invalid output, or a `RuntimeError` caught at 117), and
`.error` is an exception escaping to the `except` at 122. -/
def pandocDirectAttempt (env : DocxEnv) : Except PyErr (Option Bool) := do
  pyOp env.pypandocImportOk .pandocDirect "import pypandoc failed"
  match env.pandocPdf with
  | .ok =>
    if env.pandocPdfOutValid then pure (some env.pandocPdfOutValid)
    else pure none
  | .runtimeXelatexMissing => pure none
  | .runtimeOther => pure none
  | .otherExc => .error ⟨.pandocDirect, "convert_file raised"⟩

/-- The pandoc direct stage with its catch-all `except` at 122. -/
def tryPandocDirect (env : DocxEnv) : Option Bool :=
  match pandocDirectAttempt env with
  | .ok r => r
  | .error _ => none

/-- The xhtml2pdf attempt (lines 321-343), threading whether the
temporary HTML file exists.  `.error` is caught by the `except` at 345. -/
def xhtmlAttempt (env : DocxEnv) (htmlExists : Bool) :
    Except PyErr Bool × Bool :=
  if !env.xhtmlImportOk then
    (.error ⟨.xhtml, "import xhtml2pdf failed"⟩, htmlExists)
  else if !htmlExists then
    (.error ⟨.xhtml, "temp html file not found"⟩, htmlExists)
  else if !env.xhtmlReadOk then
    (.error ⟨.xhtml, "reading temp html failed"⟩, htmlExists)
  else if !env.pisaCallOk then
    (.error ⟨.xhtml, "CreatePDF raised"⟩, htmlExists)
  else
    -- CreatePDF returned; the cleanup at lines 336-337 runs next
    if !env.pisaErr && env.xhtmlOutValid then
      (.ok (!env.pisaErr && env.xhtmlOutValid), false)
    else (.error ⟨.xhtml, "PDF creation had errors"⟩, false)

/-- The xhtml2pdf stage: on any exception the `except` at 345 deletes
the temporary HTML file if it still exists and falls through. -/
def xhtmlStage (env : DocxEnv) (htmlExists : Bool) : Option Bool × Bool :=
  match xhtmlAttempt env htmlExists with
  | (.ok v, he) => (some v, he)
  | (.error _, _) => (none, false)

/-- The pdfkit attempt (lines 274-315).  On a successful `from_file` the
temporary HTML is deleted (lines 301-302) before the output check; a
missing-executable `OSError` is re-raised as a plain exception (313);
`.error` is caught by the `except` at 317. -/
def pdfkitAttempt (env : DocxEnv) (htmlExists : Bool) :
    Except PyErr Bool × Bool :=
  if !env.pdfkitImportOk then
    (.error ⟨.pdfkit, "import pdfkit failed"⟩, htmlExists)
  else
    match env.pdfkit with
    | .ok =>
      if env.pdfkitOutValid then (.ok env.pdfkitOutValid, false)
      else (.error ⟨.pdfkit, "PDF was not created"⟩, false)
    | .osErrNotFound => (.error ⟨.pdfkit, "wkhtmltopdf not found"⟩, htmlExists)
    | .osErrOther => (.error ⟨.pdfkit, "OSError"⟩, htmlExists)
    | .otherExc => (.error ⟨.pdfkit, "from_file raised"⟩, htmlExists)

/-- Step 3 of the bridge (lines 273-349): pdfkit, and on its failure the
xhtml2pdf fallback inside the `except` at 317. -/
def step3Render (env : DocxEnv) (htmlExists : Bool) : Option Bool × Bool :=
  match pdfkitAttempt env htmlExists with
  | (.ok v, he) => (some v, he)
  | (.error _, he) => xhtmlStage env he

/-- Observables of the HTML bridge stage. -/
structure BridgeOut where
  /-- `some v`: a `return` with validation outcome `v`; `none`: fallthrough -/
  success : Option Bool
  /-- the temporary HTML file was produced at some point -/
  htmlProduced : Bool
  /-- control reached the HTML-to-PDF rendering step (step 3) -/
  enteredStep3 : Bool
  /-- the temporary HTML file still exists when the stage ends -/
  htmlAtEnd : Bool
  deriving DecidableEq, Repr

/-- The DOCX to HTML to PDF bridge (lines 126-352).  Step 1 produces the
temporary HTML via pypandoc, or via mammoth (inside the `except` at 149)
plus the styled-shell write; step 2 enhances the HTML; step 3 renders it.
Any exception raised in steps 1-2 (including one escaping the mammoth
handler) lands in the catch-all `except` at 351, which performs no
HTML cleanup. -/
def tryHtmlBridge (env : DocxEnv) : BridgeOut :=
  if !env.pypandocImportOk then
    ⟨none, false, false, false⟩
  else if env.pandocHtmlOk then
    -- pypandoc wrote the temp HTML; html_content = None
    if !env.readPandocHtmlOk then ⟨none, true, false, true⟩
    else if !env.writeEnhancedOk then ⟨none, true, false, true⟩
    else
      let r := step3Render env true
      ⟨r.1, true, true, r.2⟩
  else
    -- pypandoc HTML conversion failed: mammoth fallback (except at 149)
    if !env.mammothOk then ⟨none, false, false, false⟩
    else if !env.writeEnhancedOk then ⟨none, false, false, false⟩
    else
      let r := step3Render env true
      ⟨r.1, true, true, r.2⟩

/-- Observables of a whole cascade run. -/
structure ConvTrace where
  htmlProduced : Bool
  enteredStep3 : Bool
  htmlAtEnd : Bool
  deriving DecidableEq, Repr

/-- The observables of the bridge stage, as recorded in a cascade run
that reached it. -/
def bridgeTrace (env : DocxEnv) : ConvTrace :=
  ⟨(tryHtmlBridge env).htmlProduced, (tryHtmlBridge env).enteredStep3,
   (tryHtmlBridge env).htmlAtEnd⟩

/-- `convert_docx_to_pdf` (docx_to_pdf.py lines 9-665): the cascade in
priority order.  `.ok v` means a path was returned, with `v` recording
that the returned file exists and has size > 0 (for the manual strategy
this is the reportlab contract that a successful `pdf.build` writes a
complete non-empty PDF); `.error` is the exception the caller sees. -/
def convertDocxToPdf (env : DocxEnv) (d : Docx) :
    Except PyErr Bool × ConvTrace :=
  match tryWindows env with
  | some v => (.ok v, ⟨false, false, false⟩)
  | none =>
    match tryPandocDirect env with
    | some v => (.ok v, ⟨false, false, false⟩)
    | none =>
      match (tryHtmlBridge env).success with
      | some v => (.ok v, bridgeTrace env)
      | none =>
        match manualStage env.manual d with
        | .ok _pdf => (.ok true, bridgeTrace env)
        | .error e => (.error e, bridgeTrace env)

/-! ## HTTP conversion endpoint (main.py lines 23-72) -/

/-- An embedded exception as `main.py` can see it: a FastAPI/Starlette
`HTTPException` (which subclasses `Exception`), or any other exception
reduced to its message.  `str()` of an `HTTPException` is
`f"{status_code}: {detail}"`. -/
inductive PyExc
  | httpExc (code : Nat) (detail : String)
  | exc (msg : String)
  deriving DecidableEq, Repr

/-- Python `str(e)` for the two exception shapes. -/
def excStr : PyExc → String
  | .httpExc c d => toString c ++ ": " ++ d
  | .exc m => m

/-- One converter invocation: its result (an output path, or a raised
exception) and the output files it wrote along the way. -/
structure ConvCall where
  result : Except PyExc String
  written : List String
  deriving Repr

/-- Oracle outcomes for the four converter branches of the endpoint,
plus the `os.path.exists` check on the produced output (line 54). -/
structure MainEnv where
  docxCall : ConvCall
  txtCall : ConvCall
  imgCall : ConvCall
  zipCall : ConvCall
  outputExists : String → Bool
  outputSize : String → Nat

/-- The HTTP response the caller of `/convert-to-pdf` sees. -/
structure HttpResponse where
  status : Nat
  detail : String
  filePath : Option String
  written : List String
  deriving DecidableEq, Repr

/-- The `/convert-to-pdf` handler `convert_file` (main.py lines 23-72).
The unsupported-extension branch raises `HTTPException(400, ...)` inside
the `try` (line 52); the blanket `except Exception` at 65 catches every
exception - `HTTPException` included - and re-raises it as
`HTTPException(500, "Conversion failed: " + str(e))`. -/
def convertFile (env : MainEnv) (filename : String) : HttpResponse :=
  let ext := getFileExtension filename
  let call : ConvCall :=
    if ext = ".docx" then env.docxCall
    else if ext = ".txt" then env.txtCall
    else if ext = ".jpg" || ext = ".jpeg" || ext = ".png" then env.imgCall
    else if ext = ".zip" then env.zipCall
    else ⟨.error (.httpExc 400 ("Unsupported file type: " ++ ext)), []⟩
  match call.result with
  | .ok path =>
    if env.outputExists path then
      ⟨200, "", some path, call.written⟩
    else
      -- the raise at line 56, itself re-wrapped by the except at 65
      ⟨500, "Conversion failed: " ++
        excStr (.httpExc 500 "Conversion failed: output file not created"),
        none, call.written⟩
  | .error e =>
    ⟨500, "Conversion failed: " ++ excStr e, none, call.written⟩

/-! ## ZIP batch handler (zip_handler.py) -/

/-- Document extensions recognised at zip_handler.py line 38. -/
def isDocExt (e : String) : Bool := e = ".txt" || e = ".docx"

/-- Image extensions recognised at zip_handler.py line 40. -/
def isImgExt (e : String) : Bool :=
  e = ".jpg" || e = ".jpeg" || e = ".png" || e = ".bmp" ||
  e = ".gif" || e = ".tiff"

/-- Lower-cased extension of an archive member name
(`os.path.splitext(filename)[1].lower()`, line 36). -/
def extOf (name : String) : String := pyLower (splitExt name).2

/-- Outcome of one per-document conversion inside the batch loop:
the converter raised; it returned but the path check at line 59 failed;
or it returned an existing PDF. -/
inductive DocConvOutcome
  | raises | okMissing | okFile
  deriving DecidableEq, Repr

/-- Oracle outcomes for the batch handler and the image merge. -/
structure ZipEnv where
  /-- per-member outcome of `convert_docx_to_pdf` / `convert_txt_to_pdf` -/
  docOutcome : String → DocConvOutcome
  /-- pixel dimensions of an image, by member name (PIL `img.size`) -/
  imgDims : String → Nat × Nat
  /-- `Image.open(image_files[0][1])` at line 99 succeeding -/
  firstOpenOk : Bool
  /-- the whole per-image body of the loop at 112-145 succeeding -/
  addOk : String → Bool

/-- Page size chosen at zip_handler.py lines 104-107. -/
inductive PageSize
  | a4
  | custom (w h : Nat)
  deriving DecidableEq, Repr

/-- How `merge_images_to_pdf` can raise. -/
inductive MergeErr
  | indexError       -- `image_files[0]` on an empty list (line 99)
  | openFirstFailed  -- `Image.open` on the first image raised (line 99)
  deriving DecidableEq, Repr

/-- The merged PDF: its page size and its pages, one successfully added
image (identified by member name) per page, in loop order. -/
structure MergedPdf where
  pagesize : PageSize
  pages : List String
  deriving DecidableEq, Repr

/-- Page-size selection from the first image (zip_handler.py lines
99-107): A4 when the first image is portrait, else a custom size at its
pixel dimensions converted to points at 96 DPI. -/
def mergePageSize (env : ZipEnv) (first : String) : PageSize :=
  let wh := env.imgDims first
  if wh.2 > wh.1 then PageSize.a4
  else PageSize.custom (wh.1 * 72 / 96) (wh.2 * 72 / 96)

/-- `merge_images_to_pdf` (zip_handler.py lines 90-152).  The first
image is opened outside any `try` to pick the page size; the per-image
loop catches its own failures and `continue`s; `c.save()` then writes
the PDF. -/
def mergeImagesToPdf (env : ZipEnv) (imgs : List String) :
    Except MergeErr MergedPdf :=
  match imgs with
  | [] => .error .indexError
  | first :: _ =>
    if !env.firstOpenOk then .error .openFirstFailed
    else
      .ok ⟨mergePageSize env first, imgs.foldl
        (fun acc f => if env.addOk f then acc ++ [f] else acc) []⟩

/-- Adding a produced PDF to the output directory: `os.rename`
overwrites an existing file of the same name (zip_handler.py line 62),
so the directory listing keeps one entry per name. -/
def addEntry (acc : List String) (n : String) : List String :=
  if acc.contains n then acc else acc ++ [n]

/-- Observables of one `handle_zip_file` run: the entries of the output
archive, and the image list `merge_images_to_pdf` was invoked with, if
it was invoked at all. -/
structure ZipOut where
  entries : List String
  mergeArg : Option (List String)
  deriving DecidableEq, Repr

/-- `document_files` of zip_handler.py lines 33-39: the members whose
lower-cased extension is `.txt` or `.docx`, in walk order. -/
def zipDocs (files : List String) : List String :=
  files.filter (fun f => isDocExt (extOf f))

/-- `image_files` of zip_handler.py lines 33-41: the members whose
lower-cased extension is an image extension, in walk order. -/
def zipImgs (files : List String) : List String :=
  files.filter (fun f => isImgExt (extOf f))

/-- The per-document conversion loop (zip_handler.py lines 46-65): each
member is converted inside its own `try`; a raised exception or a
missing output file is logged and skipped; a produced PDF is moved into
the output directory. -/
def zipPdfs (env : ZipEnv) (files : List String) : List String :=
  (zipDocs files).foldl (fun acc f =>
    match env.docOutcome f with
    | .okFile => addEntry acc ((splitExt f).1 ++ ".pdf")
    | .okMissing => acc
    | .raises => acc) []

/-- `handle_zip_file` (zip_handler.py lines 10-87) over the extracted
member names in `os.walk` order: classify members by extension, convert
each document inside a per-document `try` (failures logged and
skipped), merge the images only `if image_files:` (its own failures
also caught), then zip every file of the PDF output directory. -/
def handleZipFile (env : ZipEnv) (files : List String) : ZipOut :=
  if (zipImgs files).isEmpty then ⟨zipPdfs env files, none⟩
  else
    match mergeImagesToPdf env (zipImgs files) with
    | .ok _ => ⟨addEntry (zipPdfs env files) "images_merged.pdf",
        some (zipImgs files)⟩
    | .error _ => ⟨zipPdfs env files, some (zipImgs files)⟩

/-! ## Concrete oracle environments used by witnesses and counterexamples -/

/-- A manual-renderer environment in which every library call succeeds. -/
def allOkManualEnv : ManualEnv where
  importsOk := true
  docOpenOk := true
  fontRegistered := true
  paraT1 := fun _ => true
  paraT2 := fun _ => true
  paraT3 := fun _ => true
  cellParaOk := fun _ _ _ => true
  tableCtorOk := fun _ => true
  fallbackHeaderOk := fun _ => true
  fallbackRowOk := fun _ _ => true
  buildOk := true
  minimalBuildOk := true
  emptyBuildOk := true

/-- A non-Windows host where pandoc's direct PDF engine is missing, the
DOCX-to-HTML conversion succeeds, but reading the produced HTML back for
CSS injection (docx_to_pdf.py line 250) raises. -/
def leakDocxEnv : DocxEnv where
  isWindows := false
  docx2pdfImportOk := false
  docx2pdfCallOk := false
  docx2pdfOutValid := false
  comImportOk := false
  comDispatchOk := false
  comOpenOk := false
  comSaveOk := false
  comOutValid := false
  pypandocImportOk := true
  pandocPdf := .runtimeXelatexMissing
  pandocPdfOutValid := false
  pandocHtmlOk := true
  mammothOk := true
  readPandocHtmlOk := false
  writeEnhancedOk := true
  pdfkitImportOk := true
  pdfkit := .ok
  pdfkitOutValid := true
  xhtmlImportOk := true
  xhtmlReadOk := true
  pisaCallOk := true
  pisaErr := false
  xhtmlOutValid := true
  manual := allOkManualEnv

/-- Same host, but the CSS-injection read succeeds, so the bridge
reaches the HTML-to-PDF rendering step and wkhtmltopdf converts. -/
def renderDocxEnv : DocxEnv := { leakDocxEnv with readPandocHtmlOk := true }

/-- Batch environment: every conversion and image operation succeeds. -/
def allOkZipEnv : ZipEnv where
  docOutcome := fun _ => .okFile
  imgDims := fun _ => (100, 200)
  firstOpenOk := true
  addOk := fun _ => true

/-- Batch environment in which converting `valid.txt` succeeds and every
other document conversion raises (a corrupt member). -/
def corruptZipEnv : ZipEnv where
  docOutcome := fun f => if f == "valid.txt" then .okFile else .raises
  imgDims := fun _ => (100, 200)
  firstOpenOk := true
  addOk := fun _ => true

/-- Merge environment in which the member `bad.png` cannot be processed
inside the per-image loop, but the initial open succeeds. -/
def skipZipEnv : ZipEnv where
  docOutcome := fun _ => .okFile
  imgDims := fun _ => (100, 200)
  firstOpenOk := true
  addOk := fun f => !(f == "bad.png")

/-- Merge environment in which opening the first image raises. -/
def badFirstZipEnv : ZipEnv where
  docOutcome := fun _ => .okFile
  imgDims := fun _ => (100, 200)
  firstOpenOk := false
  addOk := fun f => !(f == "bad.png")

/-! ## Lemmas: the manual renderer -/

theorem renderParaE_eq (env : ManualEnv) (i : Nat) (p : Para) :
    renderParaE env i p = .ok (paraDegradePolicy env i p) := by
  unfold renderParaE paraDegradePolicy
  by_cases htc : p.text.trim = "" <;>
    cases h1 : env.paraT1 i <;> cases h2 : env.paraT2 i <;>
      cases h3 : env.paraT3 i <;>
        by_cases hs : asciiOnly p.text.trim = "" <;>
          simp [pyParagraph, catchE, htc, h1, h2, h3, hs, Bind.bind,
            Except.bind, Pure.pure, Except.pure]

theorem buildParasAux_eq (env : ManualEnv) (i : Nat) (ps : List Para) :
    buildParasAux env i ps = .ok (parasPolicy env i ps) := by
  induction ps generalizing i with
  | nil => rfl
  | cons p rest ih =>
    unfold buildParasAux parasPolicy
    rw [renderParaE_eq]
    simp [Bind.bind, Except.bind, Pure.pure, Except.pure, ih]

theorem buildStory_ok (env : ManualEnv) (d : Docx) :
    buildStory env d =
      .ok (parasPolicy env 0 d.paragraphs ++ renderTablesAux env 0 d.tables) := by
  unfold buildStory
  rw [buildParasAux_eq]

theorem buildRowData_length (cOk : Nat → Bool) (mc : Nat)
    (cells : List String) : (buildRowData cOk mc cells).length = mc := by
  simp [buildRowData]

theorem buildTableDataAux_length (cOk : Nat → Nat → Bool) (mc : Nat)
    (ri : Nat) (rows : List (List String)) :
    (buildTableDataAux cOk mc ri rows).length = rows.length := by
  induction rows generalizing ri with
  | nil => rfl
  | cons r rest ih => simp [buildTableDataAux, ih]

theorem buildTableDataAux_mem (cOk : Nat → Nat → Bool) (mc : Nat)
    (ri : Nat) (rows : List (List String)) (r : List TCell)
    (h : r ∈ buildTableDataAux cOk mc ri rows) : r.length = mc := by
  induction rows generalizing ri with
  | nil => simp [buildTableDataAux] at h
  | cons row rest ih =>
    rcases List.mem_cons.mp h with rfl | h2
    · exact buildRowData_length _ _ _
    · exact ih _ h2

theorem buildRowData_getD_pad (cOk : Nat → Bool) (mc : Nat)
    (cells : List String) (j : Nat) (hj : j < mc)
    (hge : cells.length ≤ j) :
    (buildRowData cOk mc cells).getD j (TCell.cellPlain "pad") =
      TCell.cellEmpty := by
  unfold buildRowData
  rw [List.getD_eq_getElem?_getD]
  simp [List.getElem?_map, List.getElem?_range, hj]
  intro h
  exact absurd h (Nat.not_lt.mpr hge)

theorem buildTableDataAux_getD (cOk : Nat → Nat → Bool) (mc : Nat)
    (rows : List (List String)) (ri k : Nat) (hk : k < rows.length) :
    (buildTableDataAux cOk mc ri rows).getD k [] =
      buildRowData (cOk (ri + k)) mc (rows.getD k []) := by
  induction rows generalizing ri k with
  | nil => simp at hk
  | cons r rest ih =>
    cases k with
    | zero => simp [buildTableDataAux]
    | succ k2 =>
      have h2 : k2 < rest.length := by simpa using hk
      simp only [buildTableDataAux, List.getD_cons_succ]
      rw [ih (ri + 1) k2 h2]
      have hnat : ri + 1 + k2 = ri + (k2 + 1) := by omega
      rw [hnat]

/-! ## Claims about the manual renderer -/

/-- C6: in the manual layout renderer every paragraph is handled by the
three-tier degradation policy and never raises past the loop: the
paragraph loop `buildParasAux` (whose rendering attempts raise through
`Except`) always returns `.ok`, with exactly the flowables prescribed by
`paraDegradePolicy` - styled render, retry with the simplified style,
ASCII-stripped text with the "[Some characters could not be displayed]"
marker, or silently dropped. -/
theorem paragraph_three_tier_policy (env : ManualEnv) (i : Nat)
    (ps : List Para) :
    buildParasAux env i ps = .ok (parasPolicy env i ps) :=
  buildParasAux_eq env i ps

/-- C7: manual-layout rendering of a document with zero paragraphs and
zero tables builds a PDF with exactly one page containing the literal
"No content found in document". -/
theorem empty_doc_renders_no_content_page (env : ManualEnv) (d : Docx)
    (hp : d.paragraphs = []) (ht : d.tables = [])
    (h1 : env.importsOk = true) (h2 : env.docOpenOk = true)
    (h3 : env.emptyBuildOk = true) :
    manualStage env d =
      .ok ⟨[[Flowable.fpara "No content found in document"
        StyleName.body]]⟩ := by
  unfold manualStage
  rw [buildStory_ok, hp, ht, h1, h2]
  simp [parasPolicy, renderTablesAux, h3]
  rfl

theorem empty_doc_renders_no_content_page_witness :
    manualStage allOkManualEnv ⟨[], []⟩ =
      .ok ⟨[[Flowable.fpara "No content found in document"
        StyleName.body]]⟩ :=
  empty_doc_renders_no_content_page allOkManualEnv ⟨[], []⟩ rfl rfl rfl rfl rfl

/-- C8: the table data handed to reportlab keeps one row per source row
(no row dropped), every row is exactly the maximum column count over all
rows long, and the positions beyond a ragged row's own cells are padded
with empty cells. -/
theorem tables_padded_no_row_dropped (cOk : Nat → Nat → Bool)
    (rows : List (List String)) :
    (buildTableData cOk rows).length = rows.length ∧
    (∀ r ∈ buildTableData cOk rows, r.length = maxColsOf rows) ∧
    (∀ k j, k < rows.length → (rows.getD k []).length ≤ j →
      j < maxColsOf rows →
      ((buildTableData cOk rows).getD k []).getD j (TCell.cellPlain "pad") =
        TCell.cellEmpty) := by
  refine ⟨buildTableDataAux_length _ _ _ _,
    fun r hr => buildTableDataAux_mem _ _ _ _ r hr, ?_⟩
  intro k j hk hlen hj
  rw [buildTableData, buildTableDataAux_getD _ _ rows 0 k hk]
  exact buildRowData_getD_pad _ _ _ _ hj hlen

theorem tables_padded_no_row_dropped_witness :
    ((buildTableData (fun _ _ => true) [["a", "b"], ["c"]]).getD 1 []).getD 1
        (TCell.cellPlain "pad") = TCell.cellEmpty ∧
    (buildTableData (fun _ _ => true) [["a", "b"], ["c"]]).length = 2 :=
  ⟨(tables_padded_no_row_dropped (fun _ _ => true) [["a", "b"], ["c"]]).2.2
      1 1 (by decide) (by decide) (by decide),
   (tables_padded_no_row_dropped (fun _ _ => true) [["a", "b"], ["c"]]).1⟩

/-! ## Lemmas: the ZIP batch handler and the image merge -/

theorem foldl_filter_append (p : String → Bool) (l acc : List String) :
    l.foldl (fun a x => if p x then a ++ [x] else a) acc =
      acc ++ l.filter p := by
  induction l generalizing acc with
  | nil => simp
  | cons x xs ih =>
    cases h : p x <;> simp [List.filter_cons, h, ih, List.append_assoc]

theorem mergeImagesToPdf_eq (env : ZipEnv) (first : String)
    (rest : List String) (ho : env.firstOpenOk = true) :
    mergeImagesToPdf env (first :: rest) =
      .ok ⟨mergePageSize env first,
        (first :: rest).filter (fun f => env.addOk f)⟩ := by
  simp [mergeImagesToPdf, ho, foldl_filter_append]
  cases h : env.addOk first <;> simp [List.filter_cons, h]

theorem mem_addEntry (acc : List String) (n e : String)
    (h : e ∈ addEntry acc n) : e ∈ acc ∨ e = n := by
  unfold addEntry at h
  by_cases hc : n ∈ acc
  · simp [hc] at h
    exact Or.inl h
  · simp [hc] at h
    exact h

theorem mem_pdfFold (env : ZipEnv) (docs : List String) (acc : List String)
    (e : String)
    (h : e ∈ docs.foldl (fun acc f =>
      match env.docOutcome f with
      | .okFile => addEntry acc ((splitExt f).1 ++ ".pdf")
      | .okMissing => acc
      | .raises => acc) acc) :
    e ∈ acc ∨ ∃ f ∈ docs, env.docOutcome f = .okFile ∧
      e = (splitExt f).1 ++ ".pdf" := by
  induction docs generalizing acc with
  | nil => exact Or.inl h
  | cons d rest ih =>
    simp only [List.foldl_cons] at h
    cases hd : env.docOutcome d <;> rw [hd] at h
    · rcases ih _ h with h2 | ⟨f, hf, h3, h4⟩
      · exact Or.inl h2
      · exact Or.inr ⟨f, List.mem_cons_of_mem _ hf, h3, h4⟩
    · rcases ih _ h with h2 | ⟨f, hf, h3, h4⟩
      · exact Or.inl h2
      · exact Or.inr ⟨f, List.mem_cons_of_mem _ hf, h3, h4⟩
    · rcases ih _ h with h2 | ⟨f, hf, h3, h4⟩
      · rcases mem_addEntry _ _ _ h2 with h5 | h5
        · exact Or.inl h5
        · exact Or.inr ⟨d, List.mem_cons_self _ _, hd, h5⟩
      · exact Or.inr ⟨f, List.mem_cons_of_mem _ hf, h3, h4⟩

/-! ## Claims about the ZIP batch handler and the image merge -/

/-- C4: an archive holding one corrupt DOCX member (its conversion
raises) and one valid TXT member (its conversion yields a PDF) is
converted to an output archive containing exactly the TXT's PDF; the
corrupt member is skipped and the batch is not aborted. -/
theorem zip_batch_skips_corrupt_docx (env : ZipEnv) (d t : String)
    (files : List String)
    (hd : extOf d = ".docx") (ht : extOf t = ".txt")
    (hfd : env.docOutcome d = .raises) (hft : env.docOutcome t = .okFile)
    (hf : files = [d, t] ∨ files = [t, d]) :
    (handleZipFile env files).entries = [(splitExt t).1 ++ ".pdf"] ∧
    (handleZipFile env files).mergeArg = none := by
  have e1 : isDocExt ".docx" = true := rfl
  have e2 : isDocExt ".txt" = true := rfl
  have e3 : isImgExt ".docx" = false := rfl
  have e4 : isImgExt ".txt" = false := rfl
  rcases hf with rfl | rfl <;>
    simp [handleZipFile, zipImgs, zipDocs, zipPdfs, List.filter_cons,
      hd, ht, e1, e2, e3, e4, hfd, hft, addEntry]

theorem zip_batch_skips_corrupt_docx_witness :
    (handleZipFile corruptZipEnv ["corrupt.docx", "valid.txt"]).entries =
      ["valid.pdf"] ∧
    (handleZipFile corruptZipEnv ["corrupt.docx", "valid.txt"]).mergeArg =
      none :=
  have h := zip_batch_skips_corrupt_docx corruptZipEnv "corrupt.docx"
    "valid.txt" ["corrupt.docx", "valid.txt"] (by decide) (by decide)
    (by decide) (by decide) (Or.inl rfl)
  ⟨h.1.trans rfl, h.2⟩

/-- C5 counterexample: with a first image whose `Image.open` raises, the
whole merge raises `openFirstFailed` and produces no PDF at all, even
though the second image would have been added successfully - the bad
image is not skipped and the merge does not continue. -/
theorem merge_aborts_on_bad_first_image :
    mergeImagesToPdf badFirstZipEnv ["bad.png", "good.png"] =
      .error .openFirstFailed ∧
    badFirstZipEnv.addOk "good.png" = true :=
  ⟨rfl, rfl⟩

/-- C5 (amended): provided the initial page-size open of the first image
succeeds, a failure adding any one image inside the per-image loop is
skipped and the merge continues: the result is the PDF whose pages are
exactly the successfully added images, in input order.  (A failure
opening the first image for page sizing instead aborts the whole
merge.) -/
theorem merge_skips_failed_images (env : ZipEnv) (first : String)
    (rest : List String) (ho : env.firstOpenOk = true) :
    mergeImagesToPdf env (first :: rest) =
      .ok ⟨mergePageSize env first,
        (first :: rest).filter (fun f => env.addOk f)⟩ :=
  mergeImagesToPdf_eq env first rest ho

theorem merge_skips_failed_images_witness :
    mergeImagesToPdf skipZipEnv ["a.png", "bad.png", "c.png"] =
      .ok ⟨mergePageSize skipZipEnv "a.png", ["a.png", "c.png"]⟩ :=
  (merge_skips_failed_images skipZipEnv "a.png" ["bad.png", "c.png"]
    rfl).trans rfl

/-- C9: the image merge preserves the input (archive-traversal) order:
when every image is added successfully the merged PDF's pages are
exactly the input list, one image per page, in the same order,
independently of the images' filenames - no re-sorting. -/
theorem merge_preserves_input_order (env : ZipEnv) (imgs : List String)
    (first : String) (rest : List String)
    (he : imgs = first :: rest) (ho : env.firstOpenOk = true)
    (hall : ∀ f ∈ imgs, env.addOk f = true) :
    ∃ m, mergeImagesToPdf env imgs = .ok m ∧ m.pages = imgs := by
  subst he
  refine ⟨_, mergeImagesToPdf_eq env first rest ho, ?_⟩
  simpa using List.filter_eq_self.mpr hall

theorem merge_preserves_input_order_witness :
    ∃ m, mergeImagesToPdf allOkZipEnv ["c.png", "a.png", "b.png"] =
      .ok m ∧ m.pages = ["c.png", "a.png", "b.png"] :=
  merge_preserves_input_order allOkZipEnv ["c.png", "a.png", "b.png"]
    "c.png" ["a.png", "b.png"] rfl rfl (by decide)

/-- C10 counterexample: an archive with no image member but a document
member named `images_merged.docx` still yields an output archive with an
`images_merged.pdf` entry (written by the document branch), so the
claim's final clause fails as stated. -/
theorem images_merged_name_collision :
    zipImgs ["images_merged.docx"] = [] ∧
    (handleZipFile allOkZipEnv ["images_merged.docx"]).mergeArg = none ∧
    "images_merged.pdf" ∈
      (handleZipFile allOkZipEnv ["images_merged.docx"]).entries := by
  decide

/-- C10 (amended): `handle_zip_file` invokes `merge_images_to_pdf` only
when at least one image member was classified (so the merge's unguarded
first-element access is never reached with an empty list), and an
archive with no image members never invokes the merge: every entry of
its output archive is the base name of some document member plus
".pdf" - an `images_merged.pdf` entry can only come from a document
member with that base name. -/
theorem merge_guard_and_no_images (env : ZipEnv) (files : List String) :
    (∀ l, (handleZipFile env files).mergeArg = some l → l ≠ []) ∧
    (zipImgs files = [] →
      (handleZipFile env files).mergeArg = none ∧
      ∀ e ∈ (handleZipFile env files).entries,
        ∃ f ∈ files, isDocExt (extOf f) = true ∧
          e = (splitExt f).1 ++ ".pdf") := by
  cases hi : (zipImgs files).isEmpty
  · have hne : zipImgs files ≠ [] := by
      intro hc
      rw [hc] at hi
      simp at hi
    constructor
    · intro l hl
      unfold handleZipFile at hl
      rw [hi] at hl
      cases hm : mergeImagesToPdf env (zipImgs files) <;>
        rw [hm] at hl <;> simp at hl <;> subst hl <;> exact hne
    · intro hc
      exact absurd hc hne
  · constructor
    · intro l hl
      unfold handleZipFile at hl
      rw [hi] at hl
      simp at hl
    · intro _
      unfold handleZipFile
      rw [hi]
      rw [if_pos rfl]
      refine ⟨rfl, ?_⟩
      intro e he
      rcases mem_pdfFold env (zipDocs files) [] e he with h | ⟨f, hf, hok, hE⟩
      · simp at h
      · have hf2 : f ∈ files.filter (fun f => isDocExt (extOf f)) := hf
        exact ⟨f, (List.mem_filter.mp hf2).1,
          (List.mem_filter.mp hf2).2, hE⟩

theorem merge_guard_and_no_images_witness :
    (["b.jpg"] : List String) ≠ [] ∧
    (handleZipFile allOkZipEnv ["a.txt"]).mergeArg = none :=
  ⟨(merge_guard_and_no_images allOkZipEnv ["a.txt", "b.jpg"]).1 ["b.jpg"]
      (by decide),
   ((merge_guard_and_no_images allOkZipEnv ["a.txt"]).2 (by decide)).1⟩

/-! ## Claim about the HTTP endpoint -/

/-- C2 (code bug evaluation): submitting a file with the unsupported
extension `.xyz` makes `convert_file` raise `HTTPException(400, ...)`
naming the extension, but the blanket `except Exception` at main.py
line 65 catches it and re-raises it as a **500** server error (whose
detail still names `.xyz`); no converter runs, so nothing is written to
any output location.  The claimed client error is never observed. -/
theorem unsupported_ext_returns_500 (env : MainEnv) :
    convertFile env "file.xyz" =
      ⟨500, "Conversion failed: 400: Unsupported file type: .xyz",
        none, []⟩ :=
  rfl

/-! ## Lemmas: the conversion cascade -/

theorem docx2pdfAttempt_ok (env : DocxEnv) (v : Bool)
    (h : docx2pdfAttempt env = .ok v) : v = true := by
  cases h1 : env.docx2pdfImportOk <;> cases h2 : env.docx2pdfCallOk <;>
    cases h3 : env.docx2pdfOutValid <;>
      simp [docx2pdfAttempt, pyOp, h1, h2, h3, Bind.bind, Except.bind,
        Pure.pure, Except.pure] at h <;>
        simp [h]

theorem comAttempt_ok (env : DocxEnv) (v : Bool)
    (h : comAttempt env = .ok v) : v = true := by
  cases h1 : env.comImportOk <;> cases h2 : env.comDispatchOk <;>
    cases h3 : env.comOpenOk <;> cases h4 : env.comSaveOk <;>
      cases h5 : env.comOutValid <;>
        simp [comAttempt, pyOp, h1, h2, h3, h4, h5, Bind.bind,
          Except.bind, Pure.pure, Except.pure] at h <;>
          simp [h]

theorem tryWindows_some (env : DocxEnv) (v : Bool)
    (h : tryWindows env = some v) : v = true := by
  unfold tryWindows at h
  by_cases hw : env.isWindows
  · rw [hw] at h
    simp only [Bool.not_true] at h
    cases ha : docx2pdfAttempt env <;> rw [ha] at h
    · cases hb : comAttempt env <;> rw [hb] at h
      · simp at h
      · simp at h
        exact h ▸ comAttempt_ok env _ hb
    · simp at h
      exact h ▸ docx2pdfAttempt_ok env _ ha
  · simp [hw] at h

theorem tryPandocDirect_some (env : DocxEnv) (v : Bool)
    (h : tryPandocDirect env = some v) : v = true := by
  unfold tryPandocDirect pandocDirectAttempt at h
  cases h1 : env.pypandocImportOk <;>
    cases h2 : env.pandocPdf <;>
      cases h3 : env.pandocPdfOutValid <;>
        simp [pyOp, h1, h2, h3, Bind.bind, Except.bind, Pure.pure,
          Except.pure] at h <;>
          simp [h]

theorem pdfkitAttempt_ok (env : DocxEnv) (he : Bool) (v he2 : Bool)
    (h : pdfkitAttempt env he = (.ok v, he2)) : v = true := by
  cases h1 : env.pdfkitImportOk <;> cases h2 : env.pdfkit <;>
    cases h3 : env.pdfkitOutValid <;>
      simp [pdfkitAttempt, h1, h2, h3] at h <;>
        simp [h]

theorem xhtmlAttempt_ok (env : DocxEnv) (he : Bool) (v he2 : Bool)
    (h : xhtmlAttempt env he = (.ok v, he2)) : v = true := by
  cases h1 : env.xhtmlImportOk <;> cases hhe : he <;>
    cases h2 : env.xhtmlReadOk <;> cases h3 : env.pisaCallOk <;>
      cases h4 : env.pisaErr <;> cases h5 : env.xhtmlOutValid <;>
        simp [xhtmlAttempt, h1, hhe, h2, h3, h4, h5] at h <;>
          simp [h]

theorem xhtmlAttempt_html_gone (env : DocxEnv) (he : Bool)
    (r : Except PyErr Bool) (he2 : Bool)
    (h : xhtmlAttempt env he = (r, he2)) : he2 = false ∨ he2 = he := by
  cases h1 : env.xhtmlImportOk <;> cases hhe : he <;>
    cases h2 : env.xhtmlReadOk <;> cases h3 : env.pisaCallOk <;>
      cases h4 : env.pisaErr <;> cases h5 : env.xhtmlOutValid <;>
        simp [xhtmlAttempt, h1, hhe, h2, h3, h4, h5] at h <;>
          simp [← h.2]

theorem step3Render_some (env : DocxEnv) (he : Bool) (v : Bool)
    (h : (step3Render env he).1 = some v) : v = true := by
  unfold step3Render at h
  cases hp : pdfkitAttempt env he with
  | mk pr phe =>
    cases pr with
    | ok pv =>
      rw [hp] at h
      simp at h
      exact h ▸ pdfkitAttempt_ok env he pv phe hp
    | error pe =>
      rw [hp] at h
      simp only [xhtmlStage] at h
      cases hx : xhtmlAttempt env phe with
      | mk xr xhe =>
        cases xr with
        | ok xv =>
          rw [hx] at h
          simp at h
          exact h ▸ xhtmlAttempt_ok env phe xv xhe hx
        | error xe =>
          rw [hx] at h
          simp at h

theorem step3Render_html_gone (env : DocxEnv) :
    (step3Render env true).2 = false := by
  unfold step3Render
  cases h1 : env.pdfkitImportOk <;> cases h2 : env.pdfkit <;>
    cases h3 : env.pdfkitOutValid <;>
      cases h4 : env.xhtmlImportOk <;> cases h5 : env.xhtmlReadOk <;>
        cases h6 : env.pisaCallOk <;> cases h7 : env.pisaErr <;>
          cases h8 : env.xhtmlOutValid <;>
            simp [pdfkitAttempt, xhtmlStage, xhtmlAttempt,
              h1, h2, h3, h4, h5, h6, h7, h8]

theorem bridge_success_valid (env : DocxEnv) (v : Bool)
    (h : (tryHtmlBridge env).success = some v) : v = true := by
  unfold tryHtmlBridge at h
  cases h1 : env.pypandocImportOk <;> cases h2 : env.pandocHtmlOk <;>
    cases h3 : env.readPandocHtmlOk <;> cases h4 : env.writeEnhancedOk <;>
      cases h5 : env.mammothOk <;>
        simp only [h1, h2, h3, h4, h5, Bool.not_true, Bool.not_false,
          ite_true, ite_false, Bool.false_eq_true, Bool.true_eq_false] at h <;>
          first
            | simp at h
            | exact step3Render_some env true v h

theorem bridge_entered_html_gone (env : DocxEnv)
    (h : (tryHtmlBridge env).enteredStep3 = true) :
    (tryHtmlBridge env).htmlAtEnd = false := by
  unfold tryHtmlBridge at h ⊢
  cases h1 : env.pypandocImportOk <;> cases h2 : env.pandocHtmlOk <;>
    cases h3 : env.readPandocHtmlOk <;> cases h4 : env.writeEnhancedOk <;>
      cases h5 : env.mammothOk <;>
        simp only [h1, h2, h3, h4, h5, Bool.not_true, Bool.not_false,
          ite_true, ite_false, Bool.false_eq_true, Bool.true_eq_false] at h ⊢ <;>
          first
            | simp at h
            | exact step3Render_html_gone env

theorem manualStage_error_stage (env : ManualEnv) (d : Docx) (e : PyErr)
    (h : manualStage env d = .error e) : e.stage = Stage.manual := by
  unfold manualStage at h
  rw [buildStory_ok] at h
  cases h1 : env.importsOk <;> rw [h1] at h
  · simp at h
    rw [← h]
  · cases h2 : env.docOpenOk <;> rw [h2] at h
    · simp at h
      rw [← h]
    · simp only [Bool.not_true, Bool.false_eq_true, if_false] at h
      cases h3 : (parasPolicy env 0 d.paragraphs ++
          renderTablesAux env 0 d.tables).isEmpty <;> rw [h3] at h <;>
        cases h4 : env.buildOk <;>
          cases h5 : env.minimalBuildOk <;>
            cases h6 : env.emptyBuildOk <;>
              simp [h4, h5, h6] at h <;>
                rw [← h]

theorem convert_trace_shape (env : DocxEnv) (d : Docx) :
    (convertDocxToPdf env d).2 = ⟨false, false, false⟩ ∨
    (convertDocxToPdf env d).2 = bridgeTrace env := by
  unfold convertDocxToPdf
  cases tryWindows env
  · cases tryPandocDirect env
    · cases (tryHtmlBridge env).success
      · cases manualStage env.manual d
        · exact Or.inr rfl
        · exact Or.inr rfl
      · exact Or.inr rfl
    · exact Or.inl rfl
  · exact Or.inl rfl

/-! ## Claims about the conversion cascade -/

/-- C1: for every oracle environment and document, `convert_docx_to_pdf`
either returns with the validation flag true - the returned file exists
and has size > 0 - or raises an exception originating in the final
(manual) strategy; an exception or failed validation in any non-final
strategy is caught and triggers fallthrough, never reaching the
caller. -/
theorem cascade_valid_or_manual_error (env : DocxEnv) (d : Docx) :
    match (convertDocxToPdf env d).1 with
    | .ok valid => valid = true
    | .error e => e.stage = Stage.manual := by
  unfold convertDocxToPdf
  cases hw : tryWindows env with
  | some v =>
    simp only [hw]
    exact tryWindows_some env v hw
  | none =>
    cases hp : tryPandocDirect env with
    | some v =>
      simp only [hw, hp]
      exact tryPandocDirect_some env v hp
    | none =>
      cases hb : (tryHtmlBridge env).success with
      | some v =>
        simp only [hw, hp, hb]
        exact bridge_success_valid env v hb
      | none =>
        cases hm : manualStage env.manual d with
        | ok p => simp only [hw, hp, hb, hm]
        | error e =>
          simp only [hw, hp, hb, hm]
          exact manualStage_error_stage env.manual d e hm

/-- C3 counterexample: in `leakDocxEnv` the bridge's temporary HTML file
is produced (pypandoc's DOCX-to-HTML conversion succeeded and wrote it)
but the enhancement read raises before the rendering step, the
exception lands in the catch-all at docx_to_pdf.py line 351, and the
function falls through to the manual strategy and returns with the
temporary HTML file still existing - it is not deleted on every path. -/
theorem bridge_html_leak :
    (convertDocxToPdf leakDocxEnv ⟨[], []⟩).2.htmlProduced = true ∧
    (convertDocxToPdf leakDocxEnv ⟨[], []⟩).2.htmlAtEnd = true ∧
    (convertDocxToPdf leakDocxEnv ⟨[], []⟩).1 = .ok true :=
  ⟨rfl, rfl, rfl⟩

/-- C3 (amended): whenever the HTML-bridge stage reaches the downstream
HTML-to-PDF rendering step, the temporary HTML file is deleted before
`convert_docx_to_pdf` returns or falls through, whether that rendering
step succeeds or fails; only an exception raised during HTML
production/enhancement, before the rendering step is reached, can leave
the file behind. -/
theorem html_deleted_when_rendering_reached (env : DocxEnv) (d : Docx)
    (h : (convertDocxToPdf env d).2.enteredStep3 = true) :
    (convertDocxToPdf env d).2.htmlAtEnd = false := by
  rcases convert_trace_shape env d with ht | ht
  · rw [ht] at h
    simp at h
  · rw [ht] at h ⊢
    simp only [bridgeTrace] at h ⊢
    exact bridge_entered_html_gone env h

theorem html_deleted_when_rendering_reached_witness :
    (convertDocxToPdf renderDocxEnv ⟨[], []⟩).2.enteredStep3 = true ∧
    (convertDocxToPdf renderDocxEnv ⟨[], []⟩).2.htmlAtEnd = false :=
  ⟨rfl, html_deleted_when_rendering_reached renderDocxEnv ⟨[], []⟩ rfl⟩

end FileConv
